import Mathlib

/-!
Verification development for the tenant resource lifecycle and
conversation-state cache of the transaction chatbot backend.

The definitions below are a shallow embedding of the Python source:
`src/db/redis_service.py` (in-memory session/message store),
`src/models/registry.py` (model registry), `src/models/loader.py`,
`src/config/startup.py` (provisioner) and the cleanup daemon of `main.py`.
Python dicts are modelled as association lists that preserve insertion
order (as Python 3.7+ dicts do); wall-clock time is an explicit `now : Nat`
parameter; raised exceptions are explicit `Except`/`Option String` values.
-/

namespace TransactionChatbot

/-- Does the list begin with the given pattern?  (Python `str.startswith`,
on character lists.) -/
def begins {α : Type} [DecidableEq α] : List α → List α → Bool
  | _, [] => true
  | [], _ :: _ => false
  | c :: cs, p :: ps => c = p && begins cs ps

/-- Python `s.startswith(pre)`. -/
def strStarts (s pre : String) : Bool := begins s.toList pre.toList

/-- Python `s.endswith(suf)`. -/
def strEnds (s suf : String) : Bool := begins s.toList.reverse suf.toList.reverse

/-- Python slice `s[n:]`. -/
def strDrop (s : String) (n : Nat) : String := String.mk (s.toList.drop n)

/-- Python slice `s[:-n]` for positive `n`. -/
def strDropRight (s : String) (n : Nat) : String :=
  String.mk (s.toList.take (s.toList.length - n))

/-- Python-dict assignment `d[k] = v`: updates the value in place when the
key is present (keeping its position in insertion order), appends a new
entry at the end otherwise. -/
def dictSet {α β : Type} [DecidableEq α] : List (α × β) → α → β → List (α × β)
  | [], k, v => [(k, v)]
  | (k', v') :: rest, k, v =>
      if k' = k then (k', v) :: rest else (k', v') :: dictSet rest k v

/-- Python-dict lookup `d.get(k)`. -/
def dictGet {α β : Type} [DecidableEq α] : List (α × β) → α → Option β
  | [], _ => none
  | (k', v') :: rest, k => if k' = k then some v' else dictGet rest k

/-- Python-dict removal `d.pop(k, None)`. -/
def dictPop {α β : Type} [DecidableEq α] : List (α × β) → α → List (α × β)
  | [], _ => []
  | (k', v') :: rest, k => if k' = k then rest else (k', v') :: dictPop rest k

/-- JSON values as produced by `json.loads`.  An integer numeral becomes
`num` (a Python `int`); a numeral with a fraction or exponent, and the
non-standard constants `NaN`/`Infinity`/`-Infinity` that `json.loads`
accepts by default, become `float`, carried as the literal text consumed —
the numeric (IEEE-double) value of a float is never inspected by the
program paths under verification, only which strings parse and to which
shape.  Objects follow Python's `dict(pairs)` semantics: first-occurrence
key order, last value wins. -/
inductive Json : Type where
  | null : Json
  | bool : Bool → Json
  | num : Int → Json
  | float : String → Json
  | str : String → Json
  | arr : List Json → Json
  | obj : List (String × Json) → Json
deriving Repr

def obrace : Char := Char.ofNat 123
def cbrace : Char := Char.ofNat 125

def skipWs : List Char → List Char
  | c :: rest =>
      if c = ' ' ∨ c = '\t' ∨ c = '\n' ∨ c = '\r' then skipWs rest else c :: rest
  | [] => []

/-- The value of one hexadecimal digit. -/
def hexVal (c : Char) : Option Nat :=
  if '0' ≤ c ∧ c ≤ '9' then some (c.toNat - 48)
  else if 'a' ≤ c ∧ c ≤ 'f' then some (c.toNat - 87)
  else if 'A' ≤ c ∧ c ≤ 'F' then some (c.toNat - 55)
  else none

/-- The value of a four-hex-digit `\uXXXX` escape body. -/
def hex4 (a b c d : Char) : Option Nat :=
  match hexVal a, hexVal b, hexVal c, hexVal d with
  | some x, some y, some z, some w => some (((x * 16 + y) * 16 + z) * 16 + w)
  | _, _, _, _ => none

/-- The two-character escapes of the JSON string grammar. -/
def escChar : Char → Option Char
  | '"' => some '"'
  | '\\' => some '\\'
  | '/' => some '/'
  | 'b' => some (Char.ofNat 8)
  | 'f' => some (Char.ofNat 12)
  | 'n' => some '\n'
  | 'r' => some '\r'
  | 't' => some '\t'
  | _ => none

/-- Parse a JSON string body after the opening quote, as strict
`json.loads` does: raw control characters below U+0020 are rejected, the
two-character escapes and `\uXXXX` are decoded, and a high/low surrogate
escape pair is combined into the astral code point.  CPython additionally
accepts a LONE surrogate escape, producing a non-scalar `str` that a Lean
`String` cannot represent; such escapes are modelled as a parse failure —
no payload of this program contains one. -/
def parseStr : List Char → Option (String × List Char)
  | [] => none
  | '\\' :: 'u' :: a :: b :: c :: d :: rest =>
      match hex4 a b c d with
      | none => none
      | some n =>
          if 55296 ≤ n ∧ n ≤ 56319 then
            match rest with
            | '\\' :: 'u' :: e :: f :: g :: h :: rs2 =>
                match hex4 e f g h with
                | some m =>
                    if 56320 ≤ m ∧ m ≤ 57343 then
                      (parseStr rs2).map (fun p =>
                        (String.mk (Char.ofNat (65536 + (n - 55296) * 1024 + (m - 56320))
                          :: p.1.toList), p.2))
                    else none
                | none => none
            | _ => none
          else if 56320 ≤ n ∧ n ≤ 57343 then none
          else (parseStr rest).map (fun p => (String.mk (Char.ofNat n :: p.1.toList), p.2))
  | '\\' :: c :: rest =>
      match escChar c with
      | some ec => (parseStr rest).map (fun p => (String.mk (ec :: p.1.toList), p.2))
      | none => none
  | c :: rest =>
      if c = '"' then some ("", rest)
      else if c.toNat < 32 then none
      else (parseStr rest).map (fun p => (String.mk (c :: p.1.toList), p.2))

/-- Parse a JSON numeral as `json.loads` does, plus the `-Infinity`
constant (its `NaN`/`Infinity` siblings start with a letter and are
handled at value level).  The integer part is `0` or starts with a
nonzero digit — a digit left over after a complete numeral can never
continue valid JSON, so `01` fails exactly as in `json.loads`.  A numeral
with a fraction or exponent is a Python float, carried as its literal
text; otherwise a Python int. -/
def parseNum (cs : List Char) : Option (Json × List Char) :=
  match cs with
  | '-' :: 'I' :: 'n' :: 'f' :: 'i' :: 'n' :: 'i' :: 't' :: 'y' :: rest =>
      some (.float "-Infinity", rest)
  | _ =>
    let signAndRest : List Char × List Char :=
      match cs with
      | '-' :: r => (['-'], r)
      | _ => ([], cs)
    match signAndRest.2 with
    | [] => none
    | c :: rest =>
        if ¬ c.isDigit then none
        else
          let intDs : List Char := if c = '0' then ['0'] else (c :: rest).takeWhile Char.isDigit
          let rest1 : List Char := if c = '0' then rest else (c :: rest).dropWhile Char.isDigit
          let fracPart : Option (List Char × List Char) :=
            match rest1 with
            | '.' :: r2 =>
                let fds := r2.takeWhile Char.isDigit
                if fds.isEmpty then none else some ('.' :: fds, r2.dropWhile Char.isDigit)
            | _ => some ([], rest1)
          match fracPart with
          | none => none
          | some (fChars, rest2) =>
              let expPart : Option (List Char × List Char) :=
                match rest2 with
                | e :: r3 =>
                    if e = 'e' ∨ e = 'E' then
                      let signExp : List Char × List Char :=
                        match r3 with
                        | '+' :: r5 => (['+'], r5)
                        | '-' :: r5 => (['-'], r5)
                        | _ => ([], r3)
                      let eds := signExp.2.takeWhile Char.isDigit
                      if eds.isEmpty then none
                      else some (e :: (signExp.1 ++ eds), signExp.2.dropWhile Char.isDigit)
                    else some ([], rest2)
                | [] => some ([], rest2)
              match expPart with
              | none => none
              | some (eChars, rest3) =>
                  if fChars.isEmpty ∧ eChars.isEmpty then
                    let n : Nat := intDs.foldl (fun acc ch => acc * 10 + (ch.toNat - 48)) 0
                    some (.num (if signAndRest.1.isEmpty then (n : Int) else -(n : Int)), rest3)
                  else
                    some (.float (String.mk (signAndRest.1 ++ intDs ++ fChars ++ eChars)),
                      rest3)

/-- Python's `dict(pairs)` on an object's key/value list: first-occurrence
key order, last value wins. -/
def dedupFields (fs : List (String × Json)) : List (String × Json) :=
  fs.foldl (fun acc kv => dictSet acc kv.1 kv.2) []

mutual

/-- Fueled recursive-descent parser for the JSON fragment the store can
contain: null, booleans, integers, strings, arrays, objects. -/
def parseVal : Nat → List Char → Option (Json × List Char)
  | 0, _ => none
  | Nat.succ fuel, cs =>
    match skipWs cs with
    | [] => none
    | c :: rest =>
      if c = 'n' then
        match rest with
        | 'u' :: 'l' :: 'l' :: rs => some (.null, rs)
        | _ => none
      else if c = 't' then
        match rest with
        | 'r' :: 'u' :: 'e' :: rs => some (.bool true, rs)
        | _ => none
      else if c = 'f' then
        match rest with
        | 'a' :: 'l' :: 's' :: 'e' :: rs => some (.bool false, rs)
        | _ => none
      else if c = 'N' then
        match rest with
        | 'a' :: 'N' :: rs => some (.float "NaN", rs)
        | _ => none
      else if c = 'I' then
        match rest with
        | 'n' :: 'f' :: 'i' :: 'n' :: 'i' :: 't' :: 'y' :: rs => some (.float "Infinity", rs)
        | _ => none
      else if c = '"' then
        (parseStr rest).map (fun p => (.str p.1, p.2))
      else if c = '[' then
        match skipWs rest with
        | ']' :: rs => some (.arr [], rs)
        | cs' => (parseItems fuel cs').map (fun p => (.arr p.1, p.2))
      else if c = obrace then
        match skipWs rest with
        | c2 :: rs => if c2 = cbrace then some (.obj [], rs)
                      else (parseFields fuel (c2 :: rs)).map
                        (fun p => (.obj (dedupFields p.1), p.2))
        | [] => none
      else
        parseNum (c :: rest)

def parseItems : Nat → List Char → Option (List Json × List Char)
  | 0, _ => none
  | Nat.succ fuel, cs =>
    match parseVal fuel cs with
    | none => none
    | some (v, rs) =>
      match skipWs rs with
      | c :: rs2 =>
          if c = ',' then (parseItems fuel rs2).map (fun p => (v :: p.1, p.2))
          else if c = ']' then some ([v], rs2)
          else none
      | [] => none

def parseFields : Nat → List Char → Option (List (String × Json) × List Char)
  | 0, _ => none
  | Nat.succ fuel, cs =>
    match skipWs cs with
    | '"' :: rs =>
      match parseStr rs with
      | none => none
      | some (k, rs1) =>
        match skipWs rs1 with
        | ':' :: rs2 =>
          match parseVal fuel rs2 with
          | none => none
          | some (v, rs3) =>
            match skipWs rs3 with
            | c :: rs4 =>
                if c = ',' then (parseFields fuel rs4).map (fun p => ((k, v) :: p.1, p.2))
                else if c = cbrace then some ([(k, v)], rs4)
                else none
            | [] => none
        | _ => none
    | _ => none

end

/-- `json.loads`: parse the whole string, requiring full consumption. -/
def jsonLoads (s : String) : Option Json :=
  match parseVal (s.toList.length + 2) s.toList with
  | some (v, rs) => if (skipWs rs).isEmpty then some v else none
  | none => none

/-! ## RedisService (`src/db/redis_service.py`): in-memory session/message store -/

/-- One entry of a session's message log, as built by
`RedisService.store_message`.  The `timestamp` field holds the wall-clock
instant of the append (`datetime.now().isoformat()` in the source). -/
structure Message where
  index : Nat
  role : String
  content : String
  timestamp : Nat
  metadata : List (String × String)
deriving Repr, DecidableEq

/-- The class-level mutable state of `RedisService` (its five dictionaries). -/
structure RState where
  messagesByKey : List (String × List Message)
  keyExpiresAt : List (String × Nat)
  activeSessionsByTenant : List (String × Nat)
  sessionActivity : List ((String × String) × Nat)
  tenantActivity : List (String × Nat)
deriving Repr, DecidableEq

/-- The empty store, as at process start. -/
def rInit : RState := ⟨[], [], [], [], []⟩

/-- `RedisService.__init__` sets `self.memory_ttl = 72000`. -/
def memory_ttl : Nat := 72000

/-- `RedisService.get_messages_key`. -/
def get_messages_key (TenantId SessionId : String) : String :=
  "ivpsql:" ++ TenantId ++ ":session:" ++ SessionId ++ ":messages"

/-- The condition under which `validate_tenant_session` raises `ValueError`
for one identifier: `not s or not s.strip()`, i.e. the string is empty or
consists of whitespace only. -/
def invalidId (s : String) : Bool :=
  s.toList.all (fun c => c = ' ' || c = '\t' || c = '\n' || c = '\r')

/-- Remove one message key from the log dict and the TTL dict
(`self._messages_by_key.pop(key, None); self._key_expires_at.pop(key, None)`). -/
def popKey (key : String) (st : RState) : RState :=
  { st with messagesByKey := dictPop st.messagesByKey key,
            keyExpiresAt := dictPop st.keyExpiresAt key }

/-- `RedisService._expire_if_needed`: drop the key's message list and expiry
when its recorded expiry instant is truthy and strictly in the past
(`if expires_at and self._now() > expires_at`). -/
def expire_if_needed (now : Nat) (key : String) (st : RState) : RState :=
  match dictGet st.keyExpiresAt key with
  | some e => if e ≠ 0 ∧ e < now then popKey key st else st
  | none => st

/-- `RedisService.incr_active_sessions`. -/
def incr_active_sessions (tenant_id : String) (st : RState) : Nat × RState :=
  let c := (dictGet st.activeSessionsByTenant tenant_id).getD 0 + 1
  (c, { st with activeSessionsByTenant := dictSet st.activeSessionsByTenant tenant_id c })

/-- `RedisService.decr_active_sessions`: `max(count - 1, 0)`, and the entry
is popped when the result is zero. -/
def decr_active_sessions (tenant_id : String) (st : RState) : Nat × RState :=
  let c := (dictGet st.activeSessionsByTenant tenant_id).getD 0 - 1
  if c = 0 then
    (c, { st with activeSessionsByTenant := dictPop st.activeSessionsByTenant tenant_id })
  else
    (c, { st with activeSessionsByTenant := dictSet st.activeSessionsByTenant tenant_id c })

/-- `RedisService.get_active_sessions`. -/
def get_active_sessions (tenant_id : String) (st : RState) : Nat :=
  (dictGet st.activeSessionsByTenant tenant_id).getD 0

/-- `RedisService.set_session_activity`. -/
def set_session_activity (now : Nat) (tenant_id session_id : String) (st : RState) : RState :=
  { st with sessionActivity := dictSet st.sessionActivity (tenant_id, session_id) now }

/-- `RedisService.store_message`: validate, lazily expire, append the next
message (index = current length), create the activity record and bump the
active-session counter on a first message, and refresh the key's TTL. -/
def store_message (now : Nat) (TenantId SessionId role : String) (content : Option String)
    (metadata : List (String × String)) (st : RState) : Except String (Nat × RState) :=
  if invalidId TenantId then .error "ValueError: TenantId is required and cannot be empty"
  else if invalidId SessionId then .error "ValueError: SessionId is required and cannot be empty"
  else
    let key := get_messages_key TenantId SessionId
    let st1 := expire_if_needed now key st
    let msgs := (dictGet st1.messagesByKey key).getD []
    let st2 :=
      if msgs.length = 0 then
        set_session_activity now TenantId SessionId (incr_active_sessions TenantId st1).2
      else st1
    let idx := msgs.length
    let msg : Message := ⟨idx, role, content.getD "", now, metadata⟩
    let st3 := { st2 with messagesByKey := dictSet st2.messagesByKey key (msgs ++ [msg]) }
    let st4 := { st3 with keyExpiresAt := dictSet st3.keyExpiresAt key (now + memory_ttl) }
    .ok (idx, st4)

/-- `RedisService.get_message_by_index` (note: no identifier validation in
the source; the index is compared as `0 <= index < len(messages)`). -/
def get_message_by_index (now : Nat) (TenantId SessionId : String) (index : Int)
    (st : RState) : Option Message × RState :=
  let key := get_messages_key TenantId SessionId
  let st1 := expire_if_needed now key st
  let msgs := (dictGet st1.messagesByKey key).getD []
  (if 0 ≤ index ∧ index < msgs.length then msgs[index.toNat]? else none, st1)

/-- `RedisService.get_all_messages`. -/
def get_all_messages (now : Nat) (TenantId SessionId : String) (st : RState) :
    Except String (List Message × RState) :=
  if invalidId TenantId then .error "ValueError: TenantId is required and cannot be empty"
  else if invalidId SessionId then .error "ValueError: SessionId is required and cannot be empty"
  else
    let key := get_messages_key TenantId SessionId
    let st1 := expire_if_needed now key st
    .ok ((dictGet st1.messagesByKey key).getD [], st1)

/-- `RedisService.delete_session`: remove the message log and activity
record; the active-session counter is decremented (with pop at zero)
whenever it is positive, whether or not the session existed. -/
def delete_session (TenantId SessionId : String) (st : RState) :
    Except String (Nat × RState) :=
  if invalidId TenantId then .error "ValueError: TenantId is required and cannot be empty"
  else if invalidId SessionId then .error "ValueError: SessionId is required and cannot be empty"
  else
    let key := get_messages_key TenantId SessionId
    let (deleted, st1) :=
      if (dictGet st.messagesByKey key).isSome then (1, popKey key st) else (0, st)
    let st2 := { st1 with sessionActivity := dictPop st1.sessionActivity (TenantId, SessionId) }
    let st3 :=
      if 0 < (dictGet st2.activeSessionsByTenant TenantId).getD 0 then
        let c := (dictGet st2.activeSessionsByTenant TenantId).getD 0 - 1
        if c = 0 then
          { st2 with activeSessionsByTenant := dictPop st2.activeSessionsByTenant TenantId }
        else
          { st2 with activeSessionsByTenant := dictSet st2.activeSessionsByTenant TenantId c }
      else st2
    .ok (deleted, st3)

/-- Is this message key lazily expired at instant `now`? -/
def expiredKey (now : Nat) (st : RState) (key : String) : Bool :=
  match dictGet st.keyExpiresAt key with
  | some e => e ≠ 0 && e < now
  | none => false

/-- `RedisService.get_tenant_sessions` iterates `self._messages_by_key.keys()`
and calls `_expire_if_needed` on each key inside the loop.  In Python 3,
popping an entry while iterating the dict's key view makes the next call to
the iterator raise `RuntimeError`; so whenever some stored key is expired,
the method raises instead of returning.  On the error path the first
expired key (in insertion order) has already been popped. -/
def get_tenant_sessions (now : Nat) (TenantId : String) (st : RState) :
    Except String (List String) × RState :=
  if invalidId TenantId then (.error "ValueError: TenantId is required", st)
  else
    let pre := "ivpsql:" ++ TenantId ++ ":session:"
    let suf := ":messages"
    match st.messagesByKey.find? (fun kv => expiredKey now st kv.1) with
    | some kv => (.error "RuntimeError: dictionary changed size during iteration",
                  expire_if_needed now kv.1 st)
    | none =>
        (.ok (st.messagesByKey.filterMap (fun kv =>
          if strStarts kv.1 pre && strEnds kv.1 suf then
            some (strDropRight (strDrop kv.1 pre.toList.length) suf.toList.length)
          else none)), st)

/-- `RedisService.get_session_keys`. -/
def get_session_keys (tenant_id : String) (st : RState) : List String :=
  st.sessionActivity.filterMap (fun kv => if kv.1.1 = tenant_id then some kv.1.2 else none)

/-- `RedisService.get_session_last_activity`. -/
def get_session_last_activity (tenant_id session_id : String) (st : RState) : Option Nat :=
  dictGet st.sessionActivity (tenant_id, session_id)

/-- `RedisService.remove_session`. -/
def remove_session (tenant_id session_id : String) (st : RState) : RState :=
  { st with sessionActivity := dictPop st.sessionActivity (tenant_id, session_id) }

/-- `RedisService.get_tenant_last_activity`. -/
def get_tenant_last_activity (tenant_id : String) (st : RState) : Option Nat :=
  dictGet st.tenantActivity tenant_id

/-- `RedisService.update_tenant_activity`. -/
def update_tenant_activity (now : Nat) (tenant_id : String) (st : RState) : RState :=
  { st with tenantActivity := dictSet st.tenantActivity tenant_id now }

/-- `RedisService.clear_tenant_activity`. -/
def clear_tenant_activity (tenant_id : String) (st : RState) : RState :=
  { st with tenantActivity := dictPop st.tenantActivity tenant_id }

/-- `RedisService.delete_all_tenant_data`: drop every message key of the
tenant (and its expiry entries), every session-activity record of the
tenant, the active-session counter and the tenant-activity record;
returns how many message keys were deleted. -/
def delete_all_tenant_data (tenant_id : String) (st : RState) :
    Except String (Nat × RState) :=
  if invalidId tenant_id then .error "ValueError: TenantId is required"
  else
    let pre := "ivpsql:" ++ tenant_id ++ ":"
    let keysToDelete := (st.messagesByKey.filter (fun kv => strStarts kv.1 pre)).map (·.1)
    let st1 := { st with
      messagesByKey := st.messagesByKey.filter (fun kv => !(strStarts kv.1 pre)),
      keyExpiresAt := st.keyExpiresAt.filter (fun kv => !(keysToDelete.contains kv.1)),
      sessionActivity := st.sessionActivity.filter (fun kv => kv.1.1 ≠ tenant_id),
      activeSessionsByTenant := dictPop st.activeSessionsByTenant tenant_id,
      tenantActivity := dictPop st.tenantActivity tenant_id }
    .ok (keysToDelete.length, st1)

/-- Python list slice `l[-2:]`. -/
def lastTwo {α : Type} (l : List α) : List α := l.drop (l.length - 2)

/-- The backward scan of `get_context_for_ai` over `reversed(all_messages)`:
the most recent `system`-role message whose content parses as a non-empty
JSON array (parse failures, non-arrays and empty arrays are skipped). -/
def lastSystemData : List Message → Option (List Json)
  | [] => none
  | m :: rest =>
      if m.role = "system" then
        match jsonLoads m.content with
        | some (Json.arr (x :: xs)) => some (x :: xs)
        | _ => lastSystemData rest
      else lastSystemData rest

/-- The pure part of `RedisService.get_context_for_ai`, applied to the list
returned by `get_all_messages`.  Every stored message carries an `index`
(so `selected_indexes` is empty exactly when there are no user/assistant
messages, and the source's fallback branch builds an empty conversation). -/
def context_from_messages (msgs : List Message) :
    Option (List Json) × List (String × String) :=
  if msgs.isEmpty then (none, [])
  else
    match lastSystemData msgs.reverse with
    | none => (none, [])
    | some arr =>
        let user_messages := lastTwo (msgs.filter (fun m => m.role = "user"))
        let ai_messages := lastTwo (msgs.filter (fun m => m.role = "assistant"))
        let selected := (user_messages ++ ai_messages).map Message.index
        let conversation :=
          if selected.isEmpty then
            (user_messages ++ ai_messages).map (fun m => (m.role, m.content))
          else
            (msgs.filter (fun m =>
                (m.role = "user" ∨ m.role = "assistant") ∧ m.index ∈ selected)).map
              (fun m => (m.role, m.content))
        (some arr, conversation)

/-- `RedisService.get_context_for_ai`. -/
def get_context_for_ai (now : Nat) (TenantId SessionId : String) (st : RState) :
    Except String ((Option (List Json) × List (String × String)) × RState) :=
  match get_all_messages now TenantId SessionId st with
  | .error e => .error e
  | .ok (msgs, st1) => .ok (context_from_messages msgs, st1)

/-! ## ModelRegistry (`src/models/registry.py`) -/

/-- A provisioned provider instance.  The `hasUnload`/`hasCleanup` flags
model `hasattr(provider, 'unload')` / `hasattr(provider, 'cleanup')`, and
the `...Raises` flags whether that hook raises when invoked (external
behaviour of the provider object). -/
structure Provider where
  providerName : String
  modelName : String
  available : Bool
  hasUnload : Bool
  unloadRaises : Bool
  hasCleanup : Bool
  cleanupRaises : Bool
deriving Repr, DecidableEq

/-- The singleton registry's `_models` dict, keyed by (tenant_id, purpose). -/
abbrev Registry := List ((String × String) × Provider)

/-- `ModelRegistry.register_model`. -/
def register_model (tenant_id purpose : String) (p : Provider) (reg : Registry) : Registry :=
  dictSet reg (tenant_id, purpose) p

/-- `ModelRegistry.get_model`. -/
def get_model (tenant_id purpose : String) (reg : Registry) : Option Provider :=
  dictGet reg (tenant_id, purpose)

/-- `ModelRegistry.get_all_for_tenant`: the purpose-to-provider dict of one
tenant, in registry insertion order. -/
def get_all_for_tenant (tenant_id : String) : Registry → List (String × Provider)
  | [] => []
  | kv :: rest =>
      if kv.1.1 = tenant_id then (kv.1.2, kv.2) :: get_all_for_tenant tenant_id rest
      else get_all_for_tenant tenant_id rest

/-- `ModelRegistry.clear_tenant`: delete every key of the tenant. -/
def clear_tenant (tenant_id : String) : Registry → Registry
  | [] => []
  | kv :: rest =>
      if kv.1.1 = tenant_id then clear_tenant tenant_id rest
      else kv :: clear_tenant tenant_id rest

/-- `ModelRegistry.get_all_tenants` builds `list(set(...))`; the iteration
order of a Python set is unspecified, modelled here as first-occurrence
order. -/
def get_all_tenants (reg : Registry) : List String :=
  (reg.map (fun kv => kv.1.1)).dedup

/-- Observable record of one iteration of the cleanup loop in
`unload_tenant_models`: which hook was called for the purpose and whether
it raised (a raise is caught and logged inside the loop). -/
inductive HookCall : Type where
  | unloadOk : String → HookCall
  | unloadFailed : String → HookCall
  | cleanupOk : String → HookCall
  | cleanupFailed : String → HookCall
  | noHook : String → HookCall
deriving Repr, DecidableEq

/-- The per-provider cleanup loop of `unload_tenant_models`:
`unload()` is preferred, `cleanup()` is the fallback; exceptions are caught
per handle and the loop continues. -/
def callHooks (models : List (String × Provider)) : List HookCall :=
  models.map (fun pp =>
    if pp.2.hasUnload then
      if pp.2.unloadRaises then .unloadFailed pp.1 else .unloadOk pp.1
    else if pp.2.hasCleanup then
      if pp.2.cleanupRaises then .cleanupFailed pp.1 else .cleanupOk pp.1
    else .noHook pp.1)

/-- `ModelRegistry.unload_tenant_models`: when the tenant has no models it
returns early (warning logged); otherwise it runs the cleanup loop and then
`clear_tenant`.  The Python function has no `return` statement on either
path, so its result is always `None` (modelled as `none`). -/
def unload_tenant_models (tenant_id : String) (reg : Registry) :
    Option Nat × List HookCall × Registry :=
  let tenant_models := get_all_for_tenant tenant_id reg
  if tenant_models.isEmpty then (none, [], reg)
  else (none, callHooks tenant_models, clear_tenant tenant_id reg)

/-! ## ModelLoader and ModelStartup (`src/models/loader.py`, `src/config/startup.py`) -/

/-- One row of `model_config.json` as consumed by
`ModelLoader.load_tenant_models`.  `constructs` models the per-row `try`
body up to `ModelProviderFactory.create` completing without raising
(missing keys or a provider constructor failure make it `false`);
`available` models `provider_instance.is_available()`. -/
structure ModelConfigRow where
  tenantId : String
  purpose : String
  providerName : String
  modelName : String
  constructs : Bool
  available : Bool
  hasUnload : Bool
  unloadRaises : Bool
  hasCleanup : Bool
  cleanupRaises : Bool
deriving Repr, DecidableEq

/-- The provider instance a row constructs. -/
def providerOf (r : ModelConfigRow) : Provider :=
  ⟨r.providerName, r.modelName, r.available, r.hasUnload, r.unloadRaises,
   r.hasCleanup, r.cleanupRaises⟩

/-- The per-row loop of `load_tenant_models`: a row that raises is logged
and skipped; a constructed provider is registered only when
`is_available()` holds. -/
def loadRows (tenant_id : String) : List ModelConfigRow → Nat → Registry → Nat × Registry
  | [], n, reg => (n, reg)
  | r :: rest, n, reg =>
      if r.constructs && r.available then
        loadRows tenant_id rest (n + 1) (register_model tenant_id r.purpose (providerOf r) reg)
      else loadRows tenant_id rest n reg

/-- `ModelLoader.load_tenant_models`: read the configuration file once,
filter the rows of this tenant, and register each successfully constructed,
available provider.  Returns the loaded count. -/
def load_tenant_models (cfg : List ModelConfigRow) (tenant_id : String) (reg : Registry) :
    Nat × Registry :=
  loadRows tenant_id (cfg.filter (fun r => r.tenantId = tenant_id)) 0 reg

/-- `ModelService(tenant_id)`: the capability-set object cached per tenant;
it holds only the tenant id and delegates lookups to the registry. -/
structure ModelServiceObj where
  tenant_id : String
deriving Repr, DecidableEq

/-- The singleton `ModelStartup` state: whether `initialize` ran (loader
present), the `_tenant_services` cache, and a count of configuration-file
reads (each `load_tenant_models` call opens `model_config.json` once). -/
structure StartupState where
  initialized : Bool
  tenantServices : List (String × ModelServiceObj)
  configReads : Nat
deriving Repr, DecidableEq

/-- The shared state touched by provisioning: the startup singleton plus
the registry singleton. -/
structure SysState where
  startup : StartupState
  registry : Registry
deriving Repr, DecidableEq

/-- `ModelStartup.get_or_create_service`: raise if not initialized; return
the cached service unchanged on a hit; otherwise read the configuration,
register the tenant's providers, create and cache a `ModelService`. -/
def get_or_create_service (cfg : List ModelConfigRow) (tenant_id : String) (s : SysState) :
    Except String (ModelServiceObj × SysState) :=
  if !s.startup.initialized then
    .error "RuntimeError: ModelStartup not initialized. Call initialize(db_service) first."
  else
    match dictGet s.startup.tenantServices tenant_id with
    | some svc => .ok (svc, s)
    | none =>
        let (_, reg) := load_tenant_models cfg tenant_id s.registry
        let svc : ModelServiceObj := ⟨tenant_id⟩
        .ok (svc,
          { startup := { s.startup with
              tenantServices := dictSet s.startup.tenantServices tenant_id svc,
              configReads := s.startup.configReads + 1 },
            registry := reg })

/-- `ModelStartup.cleanup_tenant_service`: drop the cached service if
present (a `ModelService` defines no `cleanup` attribute, so no hook is
called). -/
def cleanup_tenant_service (tenant_id : String) (s : StartupState) : StartupState :=
  if (dictGet s.tenantServices tenant_id).isSome then
    { s with tenantServices := dictPop s.tenantServices tenant_id }
  else s

/-! ## The cleanup daemon (`main.py`, `smart_cleanup_daemon`) -/

/-- `main.py` cleanup configuration. -/
def TENANT_IDLE_TIMEOUT : Nat := 84000

/-- `main.py` cleanup configuration. -/
def SESSION_IDLE_TIMEOUT : Nat := 84000

/-- `main.py` cleanup configuration. -/
def CLEANUP_CHECK_INTERVAL : Nat := 84000

/-- Everything the daemon touches: the store, the startup singleton and the
registry singleton. -/
structure AppState where
  redis : RState
  startup : StartupState
  registry : Registry
deriving Repr, DecidableEq

/-- Phase 1 of the per-tenant loop body: for each session key of the
tenant, skip it when its last activity is absent or falsy (`0`), and
delete it when idle beyond `SESSION_IDLE_TIMEOUT`.  A raised exception
(here only `ValueError` from `delete_session` validation) aborts the loop,
leaving the deletions already performed in place; the second component is
the pending exception. -/
def sweep_sessions_for_tenant (now : Nat) (tenant_id : String) :
    List String → RState → RState × Option String
  | [], st => (st, none)
  | session_id :: rest, st =>
      match get_session_last_activity tenant_id session_id st with
      | none => sweep_sessions_for_tenant now tenant_id rest st
      | some la =>
          if la = 0 then sweep_sessions_for_tenant now tenant_id rest st
          else if (SESSION_IDLE_TIMEOUT : Int) < (now : Int) - (la : Int) then
            match delete_session tenant_id session_id st with
            | .ok (_, st') => sweep_sessions_for_tenant now tenant_id rest st'
            | .error e => (st, some e)
          else sweep_sessions_for_tenant now tenant_id rest st

/-- Phase 2 of the per-tenant loop body: when the tenant's last activity is
present, truthy, and idle beyond `TENANT_IDLE_TIMEOUT`, cascade
`delete_all_tenant_data`, `unload_tenant_models` and
`cleanup_tenant_service`. -/
def sweep_tenant_level (now : Nat) (tenant_id : String) (st : AppState) :
    AppState × Option String :=
  match get_tenant_last_activity tenant_id st.redis with
  | none => (st, none)
  | some la =>
      if la = 0 then (st, none)
      else if (TENANT_IDLE_TIMEOUT : Int) < (now : Int) - (la : Int) then
        match delete_all_tenant_data tenant_id st.redis with
        | .error e => (st, some e)
        | .ok (_, r') =>
            let reg' := (unload_tenant_models tenant_id st.registry).2.2
            let su' := cleanup_tenant_service tenant_id st.startup
            (⟨r', su', reg'⟩, none)
      else (st, none)

/-- The whole body run for one tenant of the sweep universe. -/
def sweep_one_tenant (now : Nat) (tenant_id : String) (st : AppState) :
    AppState × Option String :=
  let (r', e1) := sweep_sessions_for_tenant now tenant_id
      (get_session_keys tenant_id st.redis) st.redis
  let st1 : AppState := { st with redis := r' }
  match e1 with
  | some e => (st1, some e)
  | none => sweep_tenant_level now tenant_id st1

/-- The `for tenant_id in tenants_with_models` loop of
`smart_cleanup_daemon`.  The surrounding `try` is OUTSIDE this loop, so the
first exception aborts the loop; the returned `Option String` is the
exception as caught and logged by the pass-level `except`, after which the
daemon sleeps and starts its next pass. -/
def sweep_tenants_loop (now : Nat) : List String → AppState → AppState × Option String
  | [], st => (st, none)
  | tenant_id :: rest, st =>
      match sweep_one_tenant now tenant_id st with
      | (st', none) => sweep_tenants_loop now rest st'
      | (st', some e) => (st', some e)

/-- One iteration of the daemon's `while True` body (one sweep pass): the
sweep universe is the set of tenants with at least one registered model. -/
def smart_cleanup_pass (now : Nat) (st : AppState) : AppState × Option String :=
  sweep_tenants_loop now (get_all_tenants st.registry) st

/-! ## Spec-side observables -/

/-- The number of the tenant's sessions holding a non-empty message log
(the quantity the spec says `ActiveSessionCounter` tracks). -/
def nonEmptySessionCount (tenant_id : String) (st : RState) : Nat :=
  (st.messagesByKey.filter (fun kv =>
    strStarts kv.1 ("ivpsql:" ++ tenant_id ++ ":session:") &&
    strEnds kv.1 ":messages" && !kv.2.isEmpty)).length

/-! ## Dictionary lemmas -/

theorem dictGet_set {α β : Type} [DecidableEq α] (d : List (α × β)) (k k' : α) (v : β) :
    dictGet (dictSet d k v) k' = if k = k' then some v else dictGet d k' := by
  induction d with
  | nil => simp [dictSet, dictGet]
  | cons hd tl ih =>
      obtain ⟨a, b⟩ := hd
      simp only [dictSet]
      by_cases hak : a = k
      · subst hak
        simp only [if_pos rfl, dictGet]
        by_cases h2 : a = k'
        · simp [h2]
        · simp only [if_neg h2, dictGet, if_neg h2]
      · simp only [if_neg hak, dictGet]
        by_cases h2 : a = k'
        · have hkk' : ¬ k = k' := fun hc => hak (by rw [hc, h2])
          simp [h2, hkk']
        · simp [h2, ih]

theorem dictGet_pop_ne {α β : Type} [DecidableEq α] (d : List (α × β)) (k k' : α)
    (h : k ≠ k') : dictGet (dictPop d k) k' = dictGet d k' := by
  induction d with
  | nil => simp [dictPop]
  | cons hd tl ih =>
      obtain ⟨a, b⟩ := hd
      simp only [dictPop]
      by_cases hak : a = k
      · subst hak
        have : ¬ a = k' := h
        simp [dictGet, this]
      · simp only [if_neg hak, dictGet]
        by_cases h2 : a = k' <;> simp [h2, ih]

theorem dictGet_eq_none {α β : Type} [DecidableEq α] (d : List (α × β)) (k : α)
    (h : k ∉ d.map Prod.fst) : dictGet d k = none := by
  induction d with
  | nil => rfl
  | cons hd tl ih =>
      obtain ⟨a, b⟩ := hd
      simp only [List.map_cons, List.mem_cons, not_or] at h
      have : ¬ a = k := fun hc => h.1 hc.symm
      simp [dictGet, this, ih h.2]

theorem dictGet_pop_self {α β : Type} [DecidableEq α] (d : List (α × β)) (k : α)
    (h : (d.map Prod.fst).Nodup) : dictGet (dictPop d k) k = none := by
  induction d with
  | nil => rfl
  | cons hd tl ih =>
      obtain ⟨a, b⟩ := hd
      simp only [List.map_cons, List.nodup_cons] at h
      simp only [dictPop]
      by_cases hak : a = k
      · subst hak
        simp only [if_pos rfl]
        exact dictGet_eq_none tl a h.1
      · simp [dictGet, hak, ih h.2]

/-! ## Concrete fixtures -/

/-- The store after one message appended at t = 0 for tenant `"T"`,
session `"S"` (computed by `store_message 0 "T" "S" "user" (some "hi") []`
from the empty store). -/
def exSt1 : RState :=
  ⟨[("ivpsql:T:session:S:messages", [⟨0, "user", "hi", 0, []⟩])],
   [("ivpsql:T:session:S:messages", 72000)],
   [("T", 1)], [(("T", "S"), 0)], []⟩

/-- `exSt1` after the message log of `("T", "S")` has lazily expired on a
read at t = 72001: the log and its TTL entry are gone, but the
active-session counter and the session-activity record remain. -/
def exSt1Lazy : RState := ⟨[], [], [("T", 1)], [(("T", "S"), 0)], []⟩

/-- C4 — TTL on the read paths, evaluated at the failing input.  A message
is appended at t = 0 (`memory_ttl` = 72000) and the store is read at
t = 72001, i.e. more than `memory_ttl` after the last append.  `get_all`
does return the empty list, but `get_tenant_sessions` (`keys_for_tenant`)
raises `RuntimeError` instead of returning a list without the session:
`_expire_if_needed` pops the dict entry while `get_tenant_sessions` is
iterating `self._messages_by_key.keys()`.  Before the TTL elapses the same
call returns `["S"]`. -/
theorem claim4_expired_session_reads :
    store_message 0 "T" "S" "user" (some "hi") [] rInit = .ok (0, exSt1) ∧
    get_all_messages 72001 "T" "S" exSt1 = .ok ([], exSt1Lazy) ∧
    (get_tenant_sessions 72001 "T" exSt1).1 =
      .error "RuntimeError: dictionary changed size during iteration" ∧
    (get_tenant_sessions 71999 "T" exSt1).1 = .ok ["S"] :=
  ⟨rfl, rfl, rfl, rfl⟩

/-- `exSt1` after `delete_session "T" "S2"`: the nonexistent session `"S2"`
is "deleted" — no key is removed, yet the active-session counter of `"T"`
is decremented from 1 to 0 and popped. -/
def exSt1Del2 : RState :=
  ⟨[("ivpsql:T:session:S:messages", [⟨0, "user", "hi", 0, []⟩])],
   [("ivpsql:T:session:S:messages", 72000)],
   [], [(("T", "S"), 0)], []⟩

/-- C3 counterexample — a lazily-expired session is NOT observably
identical to a never-created one on every read path: after the log of
`("T", "S")` expires on a read at t = 72001, the active-session count is
still 1 and the session-activity lookup still answers `some 0`, whereas a
sweep-triggered `delete_session` of the same session yields count 0 and an
absent activity record (the state of a never-created session, `rInit`). -/
theorem claim3_counterexample :
    get_all_messages 72001 "T" "S" exSt1 = .ok ([], exSt1Lazy) ∧
    delete_session "T" "S" exSt1 = .ok (1, rInit) ∧
    get_active_sessions "T" exSt1Lazy = 1 ∧
    get_session_last_activity "T" "S" exSt1Lazy = some 0 ∧
    get_active_sessions "T" rInit = 0 ∧
    get_session_last_activity "T" "S" rInit = none :=
  ⟨rfl, rfl, rfl, rfl, rfl, rfl⟩

/-- C3 amended — dual-path TTL consistency holds on the message read paths
only: when a session's log has lazily expired, `get_all` returns the empty
list, `get_by_index` returns absent for every index, and the message-log
and TTL dictionaries (and the tenant-activity map) end up exactly as a
sweep-triggered `delete_session` leaves them; the session-activity record
and the active-session counter are NOT reconciled (see the
counterexample). -/
theorem claim3_lazy_vs_delete (now : Nat) (tid sid : String) (st : RState) (e : Nat)
    (l : List Message)
    (hti : invalidId tid = false) (hsi : invalidId sid = false)
    (hm : dictGet st.messagesByKey (get_messages_key tid sid) = some l)
    (he : dictGet st.keyExpiresAt (get_messages_key tid sid) = some e)
    (he0 : e ≠ 0) (hlt : e < now)
    (hnm : (st.messagesByKey.map Prod.fst).Nodup)
    (hne : (st.keyExpiresAt.map Prod.fst).Nodup) :
    ∃ stE d stD,
      get_all_messages now tid sid st = .ok ([], stE) ∧
      (∀ idx : Int, (get_message_by_index now tid sid idx stE).1 = none) ∧
      delete_session tid sid st = .ok (d, stD) ∧
      stE.messagesByKey = stD.messagesByKey ∧
      stE.keyExpiresAt = stD.keyExpiresAt ∧
      stE.tenantActivity = stD.tenantActivity := by
  set key := get_messages_key tid sid with hkey
  have hexp : expire_if_needed now key st = popKey key st := by
    simp [expire_if_needed, he, he0, hlt]
  have hgetE : dictGet (popKey key st).messagesByKey key = none :=
    dictGet_pop_self _ _ hnm
  have hgetX : dictGet (popKey key st).keyExpiresAt key = none :=
    dictGet_pop_self _ _ hne
  refine ⟨popKey key st, ?_⟩
  have hAll : get_all_messages now tid sid st = .ok ([], popKey key st) := by
    simp [get_all_messages, hti, hsi, ← hkey, hexp, hgetE]
  have hIdx : ∀ idx : Int,
      (get_message_by_index now tid sid idx (popKey key st)).1 = none := by
    intro idx
    simp only [get_message_by_index, ← hkey, expire_if_needed, hgetX]
    simp [hgetE]
  have hDel : ∃ d stD, delete_session tid sid st = .ok (d, stD) ∧
      stD.messagesByKey = (popKey key st).messagesByKey ∧
      stD.keyExpiresAt = (popKey key st).keyExpiresAt ∧
      stD.tenantActivity = st.tenantActivity := by
    refine ⟨1, ?_⟩
    simp only [delete_session, hti, hsi, ← hkey, hm, Option.isSome_some,
      Bool.false_eq_true, if_false, if_true]
    repeat' split
    all_goals exact ⟨_, rfl, rfl, rfl, rfl⟩
  obtain ⟨d, stD, hD, h1, h2, h3⟩ := hDel
  exact ⟨d, stD, hAll, hIdx, hD, h1.symm, h2.symm, h3.symm⟩

/-- C5 counterexample — the counter is not the number of sessions with
non-empty logs in every reachable state: from the empty store, one message
for `("T", "S")` makes the counter 1; a `delete_session` of the
never-created session `"S2"` still decrements it to 0, though `"T"` still
has exactly one session with a non-empty log.  After a lazy expiry the
opposite divergence appears: the counter stays 1 with no non-empty log
left. -/
theorem claim5_counterexample :
    store_message 0 "T" "S" "user" (some "hi") [] rInit = .ok (0, exSt1) ∧
    delete_session "T" "S2" exSt1 = .ok (0, exSt1Del2) ∧
    get_active_sessions "T" exSt1Del2 = 0 ∧
    nonEmptySessionCount "T" exSt1Del2 = 1 ∧
    get_all_messages 72001 "T" "S" exSt1 = .ok ([], exSt1Lazy) ∧
    get_active_sessions "T" exSt1Lazy = 1 ∧
    nonEmptySessionCount "T" exSt1Lazy = 0 :=
  ⟨rfl, rfl, rfl, rfl, rfl, rfl, rfl⟩

/-- Witness for `claim3_lazy_vs_delete` at the concrete expired store. -/
theorem claim3_lazy_vs_delete_witness :
    ∃ stE d stD,
      get_all_messages 72001 "T" "S" exSt1 = .ok ([], stE) ∧
      (∀ idx : Int, (get_message_by_index 72001 "T" "S" idx stE).1 = none) ∧
      delete_session "T" "S" exSt1 = .ok (d, stD) ∧
      stE.messagesByKey = stD.messagesByKey ∧
      stE.keyExpiresAt = stD.keyExpiresAt ∧
      stE.tenantActivity = stD.tenantActivity :=
  claim3_lazy_vs_delete 72001 "T" "S" exSt1 72000 [⟨0, "user", "hi", 0, []⟩]
    rfl rfl rfl rfl (by decide) (by decide) (by decide) (by decide)

/-- C5 amended — how the active-session counter actually moves: a
successful `store_message` increments it exactly when the (post-expiry)
log was empty; EVERY successful `delete_session` decrements it with a zero
floor, whether or not the session existed; and the read path (`get_all`,
including a lazy expiry it may trigger) never changes the counter or the
session-activity map.  Together with the counterexample this shows the
counter is a best-effort gauge, not an invariant equal to the number of
non-empty sessions. -/
theorem claim5_counter_transitions (now : Nat) (tid sid role : String)
    (content : Option String) (md : List (String × String)) (st : RState)
    (hnc : (st.activeSessionsByTenant.map Prod.fst).Nodup) :
    (∀ i st', store_message now tid sid role content md st = .ok (i, st') →
      get_active_sessions tid st' =
        (if ((dictGet (expire_if_needed now (get_messages_key tid sid) st).messagesByKey
              (get_messages_key tid sid)).getD []).length = 0
         then get_active_sessions tid st + 1 else get_active_sessions tid st)) ∧
    (∀ d st', delete_session tid sid st = .ok (d, st') →
      get_active_sessions tid st' = get_active_sessions tid st - 1) ∧
    (∀ l st', get_all_messages now tid sid st = .ok (l, st') →
      st'.activeSessionsByTenant = st.activeSessionsByTenant ∧
      st'.sessionActivity = st.sessionActivity) := by
  have hexpCounter : (expire_if_needed now (get_messages_key tid sid) st).activeSessionsByTenant
      = st.activeSessionsByTenant := by
    unfold expire_if_needed popKey
    repeat' split
    all_goals rfl
  refine ⟨?_, ?_, ?_⟩
  · intro i st' h
    unfold store_message at h
    split at h
    · exact absurd h (by simp)
    · split at h
      · exact absurd h (by simp)
      · simp only [Except.ok.injEq, Prod.mk.injEq] at h
        obtain ⟨-, h2⟩ := h
        subst h2
        unfold get_active_sessions
        split
        · next hlen =>
            simp only [hlen, if_pos rfl]
            simp [set_session_activity, incr_active_sessions, dictGet_set, hexpCounter]
        · next hlen =>
            simp only [if_neg hlen]
            simp [hexpCounter]
  · intro d st' h
    unfold delete_session at h
    split at h
    · exact absurd h (by simp)
    split at h
    · exact absurd h (by simp)
    simp only [popKey] at h
    repeat' split at h
    all_goals simp only [Except.ok.injEq, Prod.mk.injEq] at h
    all_goals obtain ⟨-, h2⟩ := h
    all_goals subst h2
    all_goals unfold get_active_sessions
    all_goals simp_all [dictGet_set, dictGet_pop_self _ _ hnc]
  · intro l st' h
    unfold get_all_messages at h
    split at h
    · exact absurd h (by simp)
    · split at h
      · exact absurd h (by simp)
      · simp only [Except.ok.injEq, Prod.mk.injEq] at h
        obtain ⟨-, h2⟩ := h
        subst h2
        constructor
        · exact hexpCounter
        · unfold expire_if_needed popKey
          repeat' split
          all_goals rfl

/-- `exSt1` after a second session `"S2"` receives its first message at
t = 0: the counter moves to 2. -/
def exSt1B : RState :=
  ⟨[("ivpsql:T:session:S:messages", [⟨0, "user", "hi", 0, []⟩]),
    ("ivpsql:T:session:S2:messages", [⟨0, "user", "hi", 0, []⟩])],
   [("ivpsql:T:session:S:messages", 72000), ("ivpsql:T:session:S2:messages", 72000)],
   [("T", 2)], [(("T", "S"), 0), (("T", "S2"), 0)], []⟩

/-- Witness for `claim5_counter_transitions` at concrete operations on
`exSt1`. -/
theorem claim5_counter_transitions_witness :
    get_active_sessions "T" exSt1B =
      (if ((dictGet (expire_if_needed 0 (get_messages_key "T" "S2") exSt1).messagesByKey
            (get_messages_key "T" "S2")).getD []).length = 0
       then get_active_sessions "T" exSt1 + 1 else get_active_sessions "T" exSt1) ∧
    get_active_sessions "T" exSt1Del2 = get_active_sessions "T" exSt1 - 1 ∧
    (exSt1.activeSessionsByTenant = exSt1.activeSessionsByTenant ∧
     exSt1.sessionActivity = exSt1.sessionActivity) := by
  have h := claim5_counter_transitions 0 "T" "S2" "user" (some "hi") [] exSt1 (by decide)
  exact ⟨h.1 0 exSt1B rfl, h.2.1 0 exSt1Del2 rfl, h.2.2 [] exSt1 rfl⟩

/-! ## C6: unload_tenant_models -/

theorem get_all_for_tenant_clear (tid : String) (reg : Registry) :
    get_all_for_tenant tid (clear_tenant tid reg) = [] := by
  induction reg with
  | nil => rfl
  | cons kv rest ih =>
      by_cases h : kv.1.1 = tid
      · simpa [clear_tenant, h] using ih
      · simpa [clear_tenant, get_all_for_tenant, h] using ih

theorem dictGet_clear_ne (tid : String) (reg : Registry) (k : String × String)
    (h : k.1 ≠ tid) : dictGet (clear_tenant tid reg) k = dictGet reg k := by
  induction reg with
  | nil => rfl
  | cons kv rest ih =>
      by_cases h2 : kv.1.1 = tid
      · have hk : ¬ kv.1 = k := fun hc => h (by rw [← hc, h2])
        simp [clear_tenant, h2, dictGet, hk, ih]
      · by_cases h3 : kv.1 = k <;> simp [clear_tenant, h2, h3, dictGet, ih, h]

/-- A provider with a `cleanup` hook, for the C6 counterexample. -/
def exProvider : Provider := ⟨"Gemini", "gemini-pro", true, false, false, true, false⟩

/-- C6 counterexample — `unload_tenant_models` never returns a count: its
Python body has no `return` statement, so removing the single registered
handle of tenant `"T"` yields `None`, not 1 as the claim requires. -/
theorem claim6_counterexample :
    (unload_tenant_models "T" [(("T", "technical"), exProvider)]).1 = none ∧
    (get_all_for_tenant "T" [(("T", "technical"), exProvider)]).length = 1 ∧
    get_all_for_tenant "T" (unload_tenant_models "T"
      [(("T", "technical"), exProvider)]).2.2 = [] :=
  ⟨rfl, rfl, rfl⟩

/-- C6 amended — `unload_tenant_models` deletes every `(tenant, *)` entry
and leaves other tenants' entries untouched; every handle of the tenant
receives exactly one cleanup-hook attempt (`unload()` preferred,
`cleanup()` as fallback; a raising hook is caught and logged and neither
the remaining hooks nor the removal are prevented); the operation never
fails — but it returns `None`, not the number of entries removed. -/
theorem claim6_unload_removes_all (tenant_id : String) (reg : Registry) :
    (unload_tenant_models tenant_id reg).1 = none ∧
    get_all_for_tenant tenant_id (unload_tenant_models tenant_id reg).2.2 = [] ∧
    (∀ k, k.1 ≠ tenant_id →
      dictGet (unload_tenant_models tenant_id reg).2.2 k = dictGet reg k) ∧
    (unload_tenant_models tenant_id reg).2.1 =
      callHooks (get_all_for_tenant tenant_id reg) ∧
    (unload_tenant_models tenant_id reg).2.1.length =
      (get_all_for_tenant tenant_id reg).length := by
  have hU : unload_tenant_models tenant_id reg =
      (none, callHooks (get_all_for_tenant tenant_id reg),
       if (get_all_for_tenant tenant_id reg).isEmpty then reg
       else clear_tenant tenant_id reg) := by
    unfold unload_tenant_models
    by_cases h : (get_all_for_tenant tenant_id reg).isEmpty
    · have hnil : get_all_for_tenant tenant_id reg = [] := List.isEmpty_iff.mp h
      simp [h, hnil, callHooks]
    · simp [h]
  rw [hU]
  refine ⟨rfl, ?_, ?_, rfl, by simp [callHooks]⟩
  · by_cases h : (get_all_for_tenant tenant_id reg).isEmpty
    · have hnil : get_all_for_tenant tenant_id reg = [] := List.isEmpty_iff.mp h
      simp [h, hnil]
    · simp [h, get_all_for_tenant_clear]
  · intro k hk
    by_cases h : (get_all_for_tenant tenant_id reg).isEmpty
    · simp [h]
    · simp [h, dictGet_clear_ne tenant_id reg k hk]

/-- A registry holding a model for tenant `"T"` and one for tenant `"B"`. -/
def c6Reg : Registry := [(("T", "technical"), exProvider), (("B", "p"), exProvider)]

/-- Witness for `claim6_unload_removes_all` on a two-tenant registry. -/
theorem claim6_unload_removes_all_witness :
    get_all_for_tenant "T" (unload_tenant_models "T" c6Reg).2.2 = [] ∧
    dictGet (unload_tenant_models "T" c6Reg).2.2 ("B", "p") = dictGet c6Reg ("B", "p") :=
  ⟨(claim6_unload_removes_all "T" c6Reg).2.1,
   (claim6_unload_removes_all "T" c6Reg).2.2.1 ("B", "p") (by decide)⟩

/-! ## C1: the daemon's exception granularity -/

/-- A registry holding one model each for the tenants `" "` and `"B"`
(a whitespace tenant id passes the middleware's `if not tenant_id` check
and can therefore be provisioned and tracked). -/
def c1Registry : Registry := [((" ", "p"), exProvider), (("B", "p"), exProvider)]

/-- App state for the C1 counterexample: both tenants have been idle since
t = 1, far beyond `TENANT_IDLE_TIMEOUT`, when a sweep runs at t = 100000. -/
def c1App : AppState :=
  ⟨{ rInit with tenantActivity := [(" ", 1), ("B", 1)] }, ⟨true, [], 0⟩, c1Registry⟩

/-- The same situation with tenant `"B"` alone. -/
def c1AppB : AppState :=
  ⟨{ rInit with tenantActivity := [("B", 1)] }, ⟨true, [], 0⟩, [(("B", "p"), exProvider)]⟩

/-- C1 counterexample — a failure while sweeping tenant `" "` DOES prevent
tenant `"B"` from being swept in the same pass: `delete_all_tenant_data`
raises `ValueError` on the whitespace tenant id, the pass-level `except`
catches it, and `"B"`'s model — due for unloading, as the single-tenant run
shows — is still registered after the pass. -/
theorem claim1_counterexample :
    get_all_tenants c1Registry = [" ", "B"] ∧
    (smart_cleanup_pass 100000 c1App).2 = some "ValueError: TenantId is required" ∧
    get_model "B" "p" (smart_cleanup_pass 100000 c1App).1.registry = some exProvider ∧
    get_model "B" "p" (smart_cleanup_pass 100000 c1AppB).1.registry = none :=
  ⟨rfl, rfl, rfl, rfl⟩

/-- C1 amended — the daemon catches exceptions at sweep-pass granularity,
not per tenant: an exception raised while sweeping the first tenant of the
universe is caught and logged (the pass returns normally, so the daemon
survives to its next pass), but every remaining tenant of that pass is
skipped and the state stays as the failing tenant left it. -/
theorem claim1_pass_abort (now : Nat) (tenant_id : String) (rest : List String)
    (st st' : AppState) (e : String)
    (h : sweep_one_tenant now tenant_id st = (st', some e)) :
    sweep_tenants_loop now (tenant_id :: rest) st = (st', some e) := by
  simp [sweep_tenants_loop, h]

/-- Witness for `claim1_pass_abort` on the C1 counterexample state. -/
theorem claim1_pass_abort_witness :
    sweep_tenants_loop 100000 [" ", "B"] c1App =
      (c1App, some "ValueError: TenantId is required") :=
  claim1_pass_abort 100000 " " ["B"] c1App c1App "ValueError: TenantId is required" rfl

/-! ## C2: provisioning populates the registry -/

theorem loadRows_get_isSome (tid : String) (rows : List ModelConfigRow) (n : Nat)
    (reg : Registry) (k : String × String) :
    (dictGet (loadRows tid rows n reg).2 k).isSome = true ↔
      (dictGet reg k).isSome = true ∨
      ∃ r ∈ rows, k = (tid, r.purpose) ∧ r.constructs = true ∧ r.available = true := by
  induction rows generalizing n reg with
  | nil => simp [loadRows]
  | cons r rest ih =>
      by_cases hc : (r.constructs && r.available) = true
      · obtain ⟨hcon, hav⟩ := Bool.and_eq_true_iff.mp hc
        simp only [loadRows, hc, if_true]
        rw [ih]
        constructor
        · rintro (h | h)
          · rw [register_model, dictGet_set] at h
            by_cases hk : (tid, r.purpose) = k
            · exact Or.inr ⟨r, List.mem_cons_self r rest, hk.symm, hcon, hav⟩
            · rw [if_neg hk] at h
              exact Or.inl h
          · obtain ⟨r', hr', hrest⟩ := h
            exact Or.inr ⟨r', List.mem_cons_of_mem r hr', hrest⟩
        · rintro (h | ⟨r', hr', hk, hcon', hav'⟩)
          · rw [register_model, dictGet_set]
            by_cases hk : (tid, r.purpose) = k
            · rw [if_pos hk]
              exact Or.inl rfl
            · rw [if_neg hk]
              exact Or.inl h
          · rcases List.mem_cons.mp hr' with h1 | h1
            · subst h1
              rw [register_model, dictGet_set, if_pos hk.symm]
              exact Or.inl rfl
            · exact Or.inr ⟨r', h1, hk, hcon', hav'⟩
      · simp only [loadRows, hc, Bool.false_eq_true, if_false]
        rw [ih]
        constructor
        · rintro (h | ⟨r', hr', hrest⟩)
          · exact Or.inl h
          · exact Or.inr ⟨r', List.mem_cons_of_mem r hr', hrest⟩
        · rintro (h | ⟨r', hr', hk, hcon', hav'⟩)
          · exact Or.inl h
          · rcases List.mem_cons.mp hr' with h1 | h1
            · subst h1
              exact absurd (by rw [hcon', hav']; rfl) hc
            · exact Or.inr ⟨r', h1, hk, hcon', hav'⟩

/-- A configured row for tenant `"T1"` whose provider constructs and is
available. -/
def c2RowOk : ModelConfigRow :=
  ⟨"T1", "narrative-summary", "Gemini", "gemini-pro", true, true, false, false, false, false⟩

/-- A configured row for tenant `"T1"`, purpose `"technical"`, whose
constructed provider reports `is_available() == False` and is therefore
skipped by the loader. -/
def c2RowUnavailable : ModelConfigRow :=
  ⟨"T1", "technical", "Gemini", "gemini-pro", true, false, false, false, false, false⟩

/-- The initialized, empty provisioning state. -/
def c2Sys : SysState := ⟨⟨true, [], 0⟩, []⟩

/-- C2 counterexample — `"technical"` is configured for `"T1"` in the
configuration source, `get_or_create` returns successfully, yet the
registry lookup is absent, because the configured provider reported
unavailable and the loader skipped registering it. -/
theorem claim2_counterexample :
    c2RowUnavailable.tenantId = "T1" ∧ c2RowUnavailable.purpose = "technical" ∧
    ∃ svc s', get_or_create_service [c2RowUnavailable] "T1" c2Sys = .ok (svc, s') ∧
      get_model "T1" "technical" s'.registry = none :=
  ⟨rfl, rfl, ⟨"T1"⟩, ⟨⟨true, [("T1", ⟨"T1"⟩)], 1⟩, []⟩, rfl, rfl⟩

/-- The state `get_or_create_service` produces on a cache miss. -/
def provisionedState (cfg : List ModelConfigRow) (tenant_id : String) (s : SysState) :
    SysState :=
  ⟨{ s.startup with
      tenantServices := dictSet s.startup.tenantServices tenant_id ⟨tenant_id⟩,
      configReads := s.startup.configReads + 1 },
   (load_tenant_models cfg tenant_id s.registry).2⟩

/-- C2 amended — after `get_or_create(T)` returns on a state where `T` is
unprovisioned and the registry holds no stale `T` entries, a purpose is
present in the registry exactly when some configured row for `T` carries
it AND that row's provider constructed without raising and reported
available; in particular every purpose not configured for `T` is absent. -/
theorem claim2_provisioned_purposes (cfg : List ModelConfigRow) (tenant_id : String)
    (s : SysState)
    (hinit : s.startup.initialized = true)
    (hmiss : dictGet s.startup.tenantServices tenant_id = none)
    (hreg : ∀ p : String, dictGet s.registry (tenant_id, p) = none) :
    ∃ svc s', get_or_create_service cfg tenant_id s = .ok (svc, s') ∧
      ∀ purpose : String,
        ((get_model tenant_id purpose s'.registry).isSome = true ↔
         ∃ r ∈ cfg, r.tenantId = tenant_id ∧ r.purpose = purpose ∧
           r.constructs = true ∧ r.available = true) := by
  refine ⟨⟨tenant_id⟩, provisionedState cfg tenant_id s, ?_, ?_⟩
  · unfold get_or_create_service
    rw [hinit]
    simp only [Bool.not_true, Bool.false_eq_true, if_false, hmiss, provisionedState]
  · intro purpose
    simp only [provisionedState]
    unfold get_model load_tenant_models
    rw [loadRows_get_isSome]
    constructor
    · rintro (h | ⟨r', hr', hk, hcon, hav⟩)
      · rw [hreg purpose] at h
        exact absurd h (by simp)
      · have hmem := (List.mem_filter.mp hr').1
        have htid : r'.tenantId = tenant_id := by
          have := (List.mem_filter.mp hr').2
          simpa using this
        have hp : r'.purpose = purpose := by
          have := (Prod.mk.injEq _ _ _ _).mp hk
          exact this.2.symm
        exact ⟨r', hmem, htid, hp, hcon, hav⟩
    · rintro ⟨r', hr', htid, hp, hcon, hav⟩
      refine Or.inr ⟨r', List.mem_filter.mpr ⟨hr', by simp [htid]⟩, ?_, hcon, hav⟩
      rw [hp]

/-- Witness for `claim2_provisioned_purposes`: one available and one
unavailable configured row. -/
theorem claim2_provisioned_purposes_witness :
    ∃ svc s',
      get_or_create_service [c2RowOk, c2RowUnavailable] "T1" c2Sys = .ok (svc, s') ∧
      ∀ purpose : String,
        ((get_model "T1" purpose s'.registry).isSome = true ↔
         ∃ r ∈ [c2RowOk, c2RowUnavailable], r.tenantId = "T1" ∧ r.purpose = purpose ∧
           r.constructs = true ∧ r.available = true) :=
  claim2_provisioned_purposes [c2RowOk, c2RowUnavailable] "T1" c2Sys rfl rfl (fun _ => rfl)

/-! ## C7: idempotence of get_or_create -/

/-- C7 — calling `get_or_create` again with no intervening purge is a pure
cache hit: the second call returns the very same capability-set object and
leaves the whole state (registry, service cache, configuration-read count)
unchanged, so no re-provisioning happens. -/
theorem claim7_get_or_create_idempotent (cfg : List ModelConfigRow) (tenant_id : String)
    (s s' : SysState) (svc : ModelServiceObj)
    (h : get_or_create_service cfg tenant_id s = .ok (svc, s')) :
    get_or_create_service cfg tenant_id s' = .ok (svc, s') := by
  unfold get_or_create_service at h ⊢
  split at h
  · exact absurd h (by simp)
  · next hinit =>
      cases hsvc : dictGet s.startup.tenantServices tenant_id with
      | some svc0 =>
          rw [hsvc] at h
          simp only [Except.ok.injEq, Prod.mk.injEq] at h
          obtain ⟨h1, h2⟩ := h
          subst h1
          subst h2
          rw [if_neg hinit, hsvc]
      | none =>
          rw [hsvc] at h
          simp only [Except.ok.injEq, Prod.mk.injEq] at h
          obtain ⟨h1, h2⟩ := h
          subst h1
          subst h2
          have : ¬ ((!s.startup.initialized) = true) := hinit
          simp only [Bool.not_eq_true] at this
          simp [this, dictGet_set]

/-- Witness for `claim7_get_or_create_idempotent`: the state after a first
provisioning of `"T1"`, on which the second call is a cache hit. -/
theorem claim7_get_or_create_idempotent_witness :
    get_or_create_service [c2RowOk] "T1"
      ⟨⟨true, [("T1", ⟨"T1"⟩)], 1⟩, [(("T1", "narrative-summary"), providerOf c2RowOk)]⟩ =
      .ok (⟨"T1"⟩,
        ⟨⟨true, [("T1", ⟨"T1"⟩)], 1⟩, [(("T1", "narrative-summary"), providerOf c2RowOk)]⟩) :=
  claim7_get_or_create_idempotent [c2RowOk] "T1" c2Sys
    ⟨⟨true, [("T1", ⟨"T1"⟩)], 1⟩, [(("T1", "narrative-summary"), providerOf c2RowOk)]⟩
    ⟨"T1"⟩ rfl

/-! ## C9, C10: get_context_for_ai -/

/-- The source's qualifying test for a system message:
`isinstance(json.loads(content), list) and len(...) > 0`
(with a parse failure counting as not qualifying). -/
def isNonEmptyArr : Option Json → Bool
  | some (Json.arr (_ :: _)) => true
  | _ => false

theorem lastSystemData_eq_none (msgs : List Message)
    (h : ∀ m ∈ msgs, m.role = "system" → isNonEmptyArr (jsonLoads m.content) = false) :
    lastSystemData msgs = none := by
  induction msgs with
  | nil => rfl
  | cons m rest ih =>
      have ihr : lastSystemData rest = none :=
        ih (fun m' hm' => h m' (List.mem_cons_of_mem m hm'))
      unfold lastSystemData
      by_cases hr : m.role = "system"
      · rw [if_pos hr]
        split
        · next x xs heq =>
            have := h m (List.mem_cons_self m rest) hr
            rw [heq] at this
            exact absurd this (by simp [isNonEmptyArr])
        · exact ihr
      · rw [if_neg hr]
        exact ihr

/-- C10 — when no system-role message of the log parses to a non-empty
JSON array, `get_context_for_ai` returns an absent payload AND an empty
conversational window: the early `return None, []` drops the recent user
and assistant messages too, even when they exist. -/
theorem claim10_no_system_payload (msgs : List Message)
    (h : ∀ m ∈ msgs, m.role = "system" → isNonEmptyArr (jsonLoads m.content) = false) :
    context_from_messages msgs = (none, []) := by
  unfold context_from_messages
  by_cases he : msgs.isEmpty
  · rw [if_pos he]
  · rw [if_neg he]
    have hn : lastSystemData msgs.reverse = none :=
      lastSystemData_eq_none _ (fun m hm => h m (List.mem_reverse.mp hm))
    rw [hn]

/-- A log holding recent user and assistant turns but no qualifying system
payload. -/
def c10Msgs : List Message :=
  [⟨0, "user", "hello", 0, []⟩, ⟨1, "assistant", "hi", 1, []⟩]

/-- Witness for `claim10_no_system_payload`: the window is dropped although
user and assistant messages exist. -/
theorem claim10_no_system_payload_witness :
    context_from_messages c10Msgs = (none, []) :=
  claim10_no_system_payload c10Msgs (by decide)

/-- The conversational window as the spec words it: the sub-sequence of the
log consisting of the last at-most-2 user messages and the last at-most-2
assistant messages, kept in original insertion order, projected to
(role, content). -/
def specWindow (msgs : List Message) : List (String × String) :=
  (msgs.filter (fun m =>
      m ∈ (lastTwo (msgs.filter (fun m => m.role = "user")) ++
           lastTwo (msgs.filter (fun m => m.role = "assistant"))))).map
    (fun m => (m.role, m.content))

theorem lastTwo_subset {α : Type} (l : List α) : ∀ a ∈ lastTwo l, a ∈ l :=
  fun _ h => List.drop_subset _ _ h

theorem window_filter_eq (msgs : List Message)
    (hinj : ∀ a ∈ msgs, ∀ b ∈ msgs, a.index = b.index → a = b) :
    msgs.filter (fun m =>
      (m.role = "user" ∨ m.role = "assistant") ∧
      m.index ∈ ((lastTwo (msgs.filter (fun m => m.role = "user")) ++
                  lastTwo (msgs.filter (fun m => m.role = "assistant"))).map
                    Message.index)) =
    msgs.filter (fun m =>
      m ∈ (lastTwo (msgs.filter (fun m => m.role = "user")) ++
           lastTwo (msgs.filter (fun m => m.role = "assistant")))) := by
  apply List.filter_congr
  intro m hm
  apply decide_eq_decide.mpr
  constructor
  · rintro ⟨-, hidx⟩
    obtain ⟨m', hm'S, hidxeq⟩ := List.mem_map.mp hidx
    have hm'msgs : m' ∈ msgs := by
      rcases List.mem_append.mp hm'S with h1 | h1
      · exact List.mem_of_mem_filter (lastTwo_subset _ _ h1)
      · exact List.mem_of_mem_filter (lastTwo_subset _ _ h1)
    rwa [hinj m' hm'msgs m hm hidxeq] at hm'S
  · intro hmS
    refine ⟨?_, List.mem_map_of_mem Message.index hmS⟩
    rcases List.mem_append.mp hmS with h1 | h1
    · have := (List.mem_filter.mp (lastTwo_subset _ _ h1)).2
      exact Or.inl (by simpa using this)
    · have := (List.mem_filter.mp (lastTwo_subset _ _ h1)).2
      exact Or.inr (by simpa using this)

/-- C9 — when the log holds a qualifying system payload, the context for
analysis is that most-recent payload together with the spec's bounded
conversational window (last at-most-2 user and at-most-2 assistant
messages, re-ordered to original insertion order); the hypothesis that
message indices are unambiguous is satisfied by every log the store
builds. -/
theorem claim9_context_window (msgs : List Message) (arr : List Json)
    (hinj : ∀ a ∈ msgs, ∀ b ∈ msgs, a.index = b.index → a = b)
    (hsys : lastSystemData msgs.reverse = some arr) :
    context_from_messages msgs = (some arr, specWindow msgs) := by
  have hne : msgs.isEmpty = false := by
    cases msgs with
    | nil => simp [List.reverse_nil, lastSystemData] at hsys
    | cons _ _ => rfl
  unfold context_from_messages
  rw [hne]
  simp only [Bool.false_eq_true, if_false]
  rw [hsys]
  simp only [Prod.mk.injEq, true_and]
  by_cases hsel : ((lastTwo (msgs.filter (fun m => m.role = "user")) ++
      lastTwo (msgs.filter (fun m => m.role = "assistant"))).map Message.index).isEmpty
  · have hnil : (lastTwo (msgs.filter (fun m => m.role = "user")) ++
        lastTwo (msgs.filter (fun m => m.role = "assistant"))) = [] := by
      have := List.isEmpty_iff.mp hsel
      exact List.map_eq_nil_iff.mp this
    rw [if_pos hsel, hnil]
    simp [specWindow, hnil]
  · rw [if_neg hsel]
    rw [specWindow, window_filter_eq msgs hinj]

/-- The concrete scenario log: user at t = 0, system payload at t = 1,
assistant at t = 2. -/
def c9Msgs : List Message :=
  [⟨0, "user", "show invoices", 0, []⟩,
   ⟨1, "system", "[\x7b\"x\":1\x7d]", 1, []⟩,
   ⟨2, "assistant", "here", 2, []⟩]

/-- Witness for `claim9_context_window` on the claim's concrete scenario:
the payload is `[{"x":1}]` and the window is `[user@0, assistant@2]`. -/
theorem claim9_context_window_witness :
    context_from_messages c9Msgs =
      (some [Json.obj [("x", Json.num 1)]], specWindow c9Msgs) ∧
    specWindow c9Msgs = [("user", "show invoices"), ("assistant", "here")] :=
  ⟨claim9_context_window c9Msgs [Json.obj [("x", Json.num 1)]] (by decide) rfl, rfl⟩

/-! ## C8: append sequences -/

/-- One append request of a C8 sequence: the instant of the append and the
message fields passed to `store_message`. -/
structure AppendReq where
  time : Nat
  role : String
  content : Option String
  metadata : List (String × String)
deriving Repr, DecidableEq

/-- Run `store_message` for each request in turn, collecting the returned
indices. -/
def storeSeq (TenantId SessionId : String) :
    List AppendReq → RState → Except String (List Nat × RState)
  | [], st => .ok ([], st)
  | a :: rest, st =>
      match store_message a.time TenantId SessionId a.role a.content a.metadata st with
      | .error e => .error e
      | .ok (i, st1) =>
          match storeSeq TenantId SessionId rest st1 with
          | .error e => .error e
          | .ok (is, st2) => .ok (i :: is, st2)

/-- The log that appending `reqs` after `n` existing messages produces. -/
def logFrom (n : Nat) : List AppendReq → List Message
  | [] => []
  | a :: rest => ⟨n, a.role, a.content.getD "", a.time, a.metadata⟩ :: logFrom (n + 1) rest

/-- Every append of the list lands no later than the expiry instant left by
its predecessor (`e` is the TTL deadline currently recorded for the key),
so no append triggers a lazy expiry — the sliding-expiration discipline of
an actively-used session. -/
def timesOk : Nat → List AppendReq → Bool
  | _, [] => true
  | e, a :: rest => decide (a.time ≤ e) && timesOk (a.time + memory_ttl) rest

/-- The TTL deadline recorded after the whole sequence. -/
def lastExp : Nat → List AppendReq → Nat
  | e, [] => e
  | _, a :: rest => lastExp (a.time + memory_ttl) rest

/-- `timesOk` for a sequence started on a fresh session (the first append
is unconstrained). -/
def timesSeqOk : List AppendReq → Bool
  | [] => true
  | a :: rest => timesOk (a.time + memory_ttl) rest

/-- A read at `now` lands before the final TTL deadline. -/
def readOk (now : Nat) : List AppendReq → Bool
  | [] => true
  | a :: rest => decide (now ≤ lastExp (a.time + memory_ttl) rest)

/-- The state one in-window append leaves behind on a non-empty session. -/
def appendState (key : String) (l : List Message) (m : Message) (e : Nat)
    (st : RState) : RState :=
  { st with messagesByKey := dictSet st.messagesByKey key (l ++ [m]),
            keyExpiresAt := dictSet st.keyExpiresAt key e }

theorem storeSeq_invariant (tid sid : String)
    (hti : invalidId tid = false) (hsi : invalidId sid = false) :
    ∀ (reqs : List AppendReq) (st : RState) (l : List Message) (e : Nat),
      dictGet st.messagesByKey (get_messages_key tid sid) = some l →
      l ≠ [] →
      dictGet st.keyExpiresAt (get_messages_key tid sid) = some e →
      e ≠ 0 →
      timesOk e reqs = true →
      ∃ st', storeSeq tid sid reqs st = .ok (List.range' l.length reqs.length, st') ∧
        dictGet st'.messagesByKey (get_messages_key tid sid) =
          some (l ++ logFrom l.length reqs) ∧
        dictGet st'.keyExpiresAt (get_messages_key tid sid) = some (lastExp e reqs) ∧
        lastExp e reqs ≠ 0 ∧
        st'.activeSessionsByTenant = st.activeSessionsByTenant ∧
        st'.sessionActivity = st.sessionActivity := by
  intro reqs
  induction reqs with
  | nil =>
      intro st l e hm hl he he0 ht
      exact ⟨st, rfl, by simpa [logFrom] using hm, he, he0, rfl, rfl⟩
  | cons a rest ih =>
      intro st l e hm hl he he0 ht
      simp only [timesOk, Bool.and_eq_true, decide_eq_true_eq] at ht
      obtain ⟨hle, ht'⟩ := ht
      have hnoexp : expire_if_needed a.time (get_messages_key tid sid) st = st := by
        have hnl : ¬ (e < a.time) := Nat.not_lt.mpr hle
        simp [expire_if_needed, he, hnl]
      have hlen0 : ¬ l.length = 0 := by
        simpa [List.length_eq_zero] using hl
      have hstore : store_message a.time tid sid a.role a.content a.metadata st =
          .ok (l.length, appendState (get_messages_key tid sid) l
            ⟨l.length, a.role, a.content.getD "", a.time, a.metadata⟩
            (a.time + memory_ttl) st) := by
        unfold store_message
        simp only [hti, hsi, Bool.false_eq_true, if_false, hnoexp, hm,
          Option.getD_some, hlen0, if_neg hlen0, appendState]
      have hm1 : dictGet (appendState (get_messages_key tid sid) l
          ⟨l.length, a.role, a.content.getD "", a.time, a.metadata⟩
          (a.time + memory_ttl) st).messagesByKey (get_messages_key tid sid) =
          some (l ++ [⟨l.length, a.role, a.content.getD "", a.time, a.metadata⟩]) := by
        simp [appendState, dictGet_set]
      have he1 : dictGet (appendState (get_messages_key tid sid) l
          ⟨l.length, a.role, a.content.getD "", a.time, a.metadata⟩
          (a.time + memory_ttl) st).keyExpiresAt (get_messages_key tid sid) =
          some (a.time + memory_ttl) := by
        simp [appendState, dictGet_set]
      obtain ⟨st', hseq, hm2, he2, he02, hc2, hs2⟩ :=
        ih (appendState (get_messages_key tid sid) l
            ⟨l.length, a.role, a.content.getD "", a.time, a.metadata⟩
            (a.time + memory_ttl) st)
          (l ++ [⟨l.length, a.role, a.content.getD "", a.time, a.metadata⟩])
          (a.time + memory_ttl) hm1 (by simp) he1 (by simp [memory_ttl]) ht'
      refine ⟨st', ?_, ?_, he2, he02, ?_, ?_⟩
      · simp only [storeSeq, hstore, hseq]
        congr 1
        congr 1
        simp [List.range', List.length_append]
      · rw [hm2]
        congr 1
        simp [logFrom, List.length_append, List.append_assoc]
      · rw [hc2]
        simp [appendState]
      · rw [hs2]
        simp [appendState]

/-- C8 — appending N messages in sequence (each within the sliding TTL
window of its predecessor) returns indices 0..N-1 assigned at append time,
and a subsequent in-window `get_all` returns exactly those N messages in
append order, message i carrying index i — gapless and strictly
increasing. -/
theorem claim8_append_sequence (tid sid : String) (reqs : List AppendReq)
    (hti : invalidId tid = false) (hsi : invalidId sid = false)
    (hchain : timesSeqOk reqs = true) :
    ∃ st', storeSeq tid sid reqs rInit = .ok (List.range reqs.length, st') ∧
      ∀ now : Nat, readOk now reqs = true →
        get_all_messages now tid sid st' = .ok (logFrom 0 reqs, st') := by
  cases reqs with
  | nil =>
      refine ⟨rInit, rfl, ?_⟩
      intro now _
      simp [get_all_messages, hti, hsi, expire_if_needed, dictGet, rInit, logFrom]
  | cons a rest =>
      simp only [timesSeqOk] at hchain
      have hstore0 : store_message a.time tid sid a.role a.content a.metadata rInit =
          .ok (0, ⟨[(get_messages_key tid sid,
                     [⟨0, a.role, a.content.getD "", a.time, a.metadata⟩])],
                   [(get_messages_key tid sid, a.time + memory_ttl)],
                   [(tid, 1)], [((tid, sid), a.time)], []⟩) := by
        unfold store_message
        simp only [hti, hsi, Bool.false_eq_true, if_false]
        simp [rInit, expire_if_needed, dictGet, dictSet, incr_active_sessions,
          set_session_activity]
      obtain ⟨st', hseq, hm2, he2, he02, -, -⟩ :=
        storeSeq_invariant tid sid hti hsi rest
          ⟨[(get_messages_key tid sid,
             [⟨0, a.role, a.content.getD "", a.time, a.metadata⟩])],
           [(get_messages_key tid sid, a.time + memory_ttl)],
           [(tid, 1)], [((tid, sid), a.time)], []⟩
          [⟨0, a.role, a.content.getD "", a.time, a.metadata⟩]
          (a.time + memory_ttl) (by simp [dictGet]) (by simp) (by simp [dictGet])
          (by simp [memory_ttl]) hchain
      refine ⟨st', ?_, ?_⟩
      · simp only [storeSeq, hstore0, hseq]
        congr 1
        congr 1
        rw [List.range_eq_range']
        simp [List.range']
      · intro now hread
        simp only [readOk, decide_eq_true_eq] at hread
        have hnoexp : expire_if_needed now (get_messages_key tid sid) st' = st' := by
          have hnl : ¬ (lastExp (a.time + memory_ttl) rest < now) := Nat.not_lt.mpr hread
          simp [expire_if_needed, he2, hnl]
        unfold get_all_messages
        simp only [hti, hsi, Bool.false_eq_true, if_false, hnoexp, hm2, Option.getD_some]
        simp [logFrom]

/-- The three-append sequence of the C8 witness. -/
def c8Reqs : List AppendReq :=
  [⟨0, "user", some "q1", []⟩, ⟨10, "assistant", some "a1", []⟩,
   ⟨20, "user", some "q2", []⟩]

/-- Witness for `claim8_append_sequence` on a concrete three-append run. -/
theorem claim8_append_sequence_witness :
    ∃ st', storeSeq "T1" "S1" c8Reqs rInit = .ok (List.range 3, st') ∧
      ∀ now : Nat, readOk now c8Reqs = true →
        get_all_messages now "T1" "S1" st' = .ok (logFrom 0 c8Reqs, st') :=
  claim8_append_sequence "T1" "S1" c8Reqs rfl rfl (by decide)

end TransactionChatbot
